import Mathlib

/-!
Verification of the request-orchestration core of the shopify-automation image
generator, as implemented in src/image-generator.ts (class ImageGenerator).

The embedding models:
* the rate budget: fields requestCount, dailyRequestCount, lastResetTime and the
  methods checkRateLimit (lines 136-164) and executeWithRateLimit (lines 166-185);
* the scene resolver generatePhotoshootScenes (lines 313-471), whose catch clause
  converts any failure into a fixed fallback scene;
* the per-step retry loop of generateImages (lines 596-720), including the
  scene-regeneration escalation and the exponential backoff;
* the item selection of processProducts (lines 851-890): row filtering,
  first-occurrence de-duplication by Handle, start/limit slicing;
* the positional metadata slot assignment of processProducts (lines 959-997).

Timing is modelled by explicit timestamps carried in the call events: each
outbound call happens at time now; when checkRateLimit suspends the caller on
the minute limit, the Date.now() value observed after the wait is the event
field resumeTime.  JavaScript number subtraction on timestamps only feeds the
comparisons now - lastResetTime > window, which agree with truncated Nat
subtraction because a negative difference and a zero difference both fail the
comparison.
-/

/-- Static limits of the budget: RATE_LIMITS.requestsPerMinute and
RATE_LIMITS.requestsPerDay (lines 54-59).  The inter-request delay and the
images-per-product entries do not affect the counters and are omitted. -/
structure RateLimits where
  requestsPerMinute : Nat
  requestsPerDay : Nat
deriving Repr, DecidableEq

/-- Mutable counters of the ImageGenerator instance (lines 48-50).  The source
keeps one shared lastResetTime for both the minute and the day window. -/
structure BudgetState where
  requestCount : Nat
  dailyRequestCount : Nat
  lastResetTime : Nat
deriving Repr, DecidableEq

def oneMinuteMs : Nat := 60 * 1000

def oneDayMs : Nat := 24 * 60 * 60 * 1000

/-- Structured scene record, interface PhotoshootScene (lines 34-43). -/
structure PhotoshootSceneRecord where
  aesthetic : String
  setting : String
  mood : String
  lighting : String
  styling : String
  model_description : String
  composition : String
  props : List String
deriving Repr, DecidableEq

/-- Payload of a remote generation call that returned without throwing:
either a parseable structured scene, inline image data, or a response carrying
neither (for a scene call this makes JSON.parse throw; for an image call it is
the no-image-data branch of lines 629-659). -/
inductive GenPayload
  | sceneJson (s : PhotoshootSceneRecord)
  | imageData
  | emptyResponse
deriving Repr, DecidableEq

/-- One outbound call as seen by the budget: the wall-clock time of the call,
the wall-clock time observed after a potential minute-limit wait, the behaviour
of the remote operation (none models the operation throwing), and the
Math.random() draw used for the fallback-scene choice if this is a scene call
that fails. -/
structure CallEvent where
  now : Nat
  resumeTime : Nat
  behavior : Option GenPayload
  rnd : Nat
deriving Repr, DecidableEq

/-- Counter-reset part of checkRateLimit (lines 141-149): one shared
lastResetTime; the day check runs first, the minute check only otherwise. -/
def rollover (s : BudgetState) (now : Nat) : BudgetState :=
  if now - s.lastResetTime > oneDayMs then
    { requestCount := 0, dailyRequestCount := 0, lastResetTime := now }
  else if now - s.lastResetTime > oneMinuteMs then
    { s with requestCount := 0, lastResetTime := now }
  else s

/-- checkRateLimit (lines 136-164).  Returns the state after the method and
whether it threw the daily-limit error.  When the per-minute limit is reached
the method waits, then zeroes requestCount and stamps lastResetTime with the
post-wait Date.now() (modelled by resumeTime). -/
def checkRateLimit (cfg : RateLimits) (s : BudgetState) (now resumeTime : Nat) :
    BudgetState × Bool :=
  let s1 := rollover s now
  if s1.dailyRequestCount ≥ cfg.requestsPerDay then (s1, true)
  else if s1.requestCount ≥ cfg.requestsPerMinute then
    ({ s1 with requestCount := 0, lastResetTime := resumeTime }, false)
  else (s1, false)

/-- Outcome of executeWithRateLimit: the daily-limit error thrown by
checkRateLimit, the wrapped operation throwing (rethrown after the counter
refund), or the operation returning a payload. -/
inductive ExecOutcome
  | dailyError
  | opError
  | opOk (p : GenPayload)
deriving Repr, DecidableEq

/-- executeWithRateLimit (lines 166-185): run checkRateLimit, increment both
counters, run the operation; on operation failure decrement both counters and
rethrow. -/
def executeWithRateLimitEvent (cfg : RateLimits) (s : BudgetState) (e : CallEvent) :
    BudgetState × ExecOutcome :=
  let c := checkRateLimit cfg s e.now e.resumeTime
  if c.2 then (c.1, .dailyError)
  else
    let s2 : BudgetState :=
      { c.1 with
        requestCount := c.1.requestCount + 1
        dailyRequestCount := c.1.dailyRequestCount + 1 }
    match e.behavior with
    | some p => (s2, .opOk p)
    | none =>
        ({ s2 with
            requestCount := s2.requestCount - 1
            dailyRequestCount := s2.dailyRequestCount - 1 }, .opError)

/-- The budget state left behind by one reservation/release round. -/
def budgetStep (cfg : RateLimits) (s : BudgetState) (e : CallEvent) : BudgetState :=
  (executeWithRateLimitEvent cfg s e).1

/-- All states observable between reservations along a sequential trace of
calls, starting state included. -/
def budgetStates (cfg : RateLimits) : BudgetState → List CallEvent → List BudgetState
  | s, [] => [s]
  | s, e :: es => s :: budgetStates cfg (budgetStep cfg s e) es

/-- The budget invariant claimed by the spec. -/
def BudgetInv (cfg : RateLimits) (s : BudgetState) : Prop :=
  s.requestCount ≤ cfg.requestsPerMinute ∧ s.dailyRequestCount ≤ cfg.requestsPerDay

lemma rollover_requestCount_le (s : BudgetState) (now : Nat) :
    (rollover s now).requestCount ≤ s.requestCount := by
  unfold rollover
  split
  · exact Nat.zero_le _
  · split
    · exact Nat.zero_le _
    · exact Nat.le_refl _

lemma rollover_dailyRequestCount_le (s : BudgetState) (now : Nat) :
    (rollover s now).dailyRequestCount ≤ s.dailyRequestCount := by
  unfold rollover
  split
  · exact Nat.zero_le _
  · split
    · exact Nat.le_refl _
    · exact Nat.le_refl _

lemma budgetStep_inv (cfg : RateLimits) (hm : 1 ≤ cfg.requestsPerMinute)
    (s : BudgetState) (e : CallEvent) (hs : BudgetInv cfg s) :
    BudgetInv cfg (budgetStep cfg s e) := by
  obtain ⟨h1, h2⟩ := hs
  have hr1 : (rollover s e.now).requestCount ≤ cfg.requestsPerMinute :=
    le_trans (rollover_requestCount_le s e.now) h1
  have hr2 : (rollover s e.now).dailyRequestCount ≤ cfg.requestsPerDay :=
    le_trans (rollover_dailyRequestCount_le s e.now) h2
  unfold budgetStep executeWithRateLimitEvent checkRateLimit BudgetInv
  set t := rollover s e.now with ht
  by_cases hd : t.dailyRequestCount ≥ cfg.requestsPerDay
  · simp only [hd, if_true, if_pos]
    exact ⟨hr1, hr2⟩
  · by_cases hmin : t.requestCount ≥ cfg.requestsPerMinute
    · cases hb : e.behavior <;> simp [hd, hmin, hb] <;> omega
    · cases hb : e.behavior <;> simp [hd, hmin, hb] <;> omega

lemma budgetStates_inv (cfg : RateLimits) (hm : 1 ≤ cfg.requestsPerMinute) :
    ∀ (events : List CallEvent) (s : BudgetState), BudgetInv cfg s →
      ∀ x ∈ budgetStates cfg s events, BudgetInv cfg x := by
  intro events
  induction events with
  | nil =>
      intro s hs x hx
      simp only [budgetStates, List.mem_singleton] at hx
      exact hx ▸ hs
  | cons e es ih =>
      intro s hs x hx
      simp only [budgetStates, List.mem_cons] at hx
      rcases hx with rfl | hx
      · exact hs
      · exact ih (budgetStep cfg s e) (budgetStep_inv cfg hm s e hs) x hx

/-- C1: starting from fresh counters, along any sequential trace of
reservation/release rounds, requestCount never exceeds the configured
per-minute limit and dailyRequestCount never exceeds the configured per-day
limit at any state observable between reservations.  The per-minute limit is
assumed positive (the configuration default is 400): a zero per-minute limit
would let the forced reset-and-increment of lines 157-163 and 169 push
requestCount to 1. -/
theorem c1_budget_invariant (cfg : RateLimits) (hm : 1 ≤ cfg.requestsPerMinute)
    (t0 : Nat) (events : List CallEvent) :
    ∀ s ∈ budgetStates cfg ⟨0, 0, t0⟩ events,
      s.requestCount ≤ cfg.requestsPerMinute ∧
        s.dailyRequestCount ≤ cfg.requestsPerDay := by
  intro s hs
  exact budgetStates_inv cfg hm events ⟨0, 0, t0⟩ ⟨Nat.zero_le _, Nat.zero_le _⟩ s hs

/-- Witness for C1: the state left by a concrete three-call trace against a
budget limited to 1 request per minute and 2 per day satisfies the invariant. -/
theorem c1_budget_invariant_witness :
    ((budgetStates ⟨1, 2⟩ ⟨0, 0, 0⟩
        [⟨0, 0, some .imageData, 0⟩, ⟨10, 60010, some .imageData, 0⟩,
          ⟨20, 60020, none, 0⟩]).getD 3 ⟨9, 9, 9⟩).requestCount ≤ (1 : Nat) ∧
      ((budgetStates ⟨1, 2⟩ ⟨0, 0, 0⟩
        [⟨0, 0, some .imageData, 0⟩, ⟨10, 60010, some .imageData, 0⟩,
          ⟨20, 60020, none, 0⟩]).getD 3 ⟨9, 9, 9⟩).dailyRequestCount ≤ (2 : Nat) :=
  c1_budget_invariant ⟨1, 2⟩ (by decide) 0
    [⟨0, 0, some .imageData, 0⟩, ⟨10, 60010, some .imageData, 0⟩, ⟨20, 60020, none, 0⟩]
    _ (by decide)

/-- C3: when checkRateLimit did not throw and the wrapped operation fails,
the increment of both counters followed by the failure refund of lines 179-184
is the identity: both counters end exactly at their pre-reservation values
(the values checkRateLimit left behind). -/
theorem c3_failure_refund_roundtrip (cfg : RateLimits) (s : BudgetState)
    (e : CallEvent) (hfail : e.behavior = none)
    (hok : (checkRateLimit cfg s e.now e.resumeTime).2 = false) :
    (executeWithRateLimitEvent cfg s e).1.requestCount
        = (checkRateLimit cfg s e.now e.resumeTime).1.requestCount ∧
      (executeWithRateLimitEvent cfg s e).1.dailyRequestCount
        = (checkRateLimit cfg s e.now e.resumeTime).1.dailyRequestCount := by
  unfold executeWithRateLimitEvent
  simp [hfail, hok]

/-- Witness for C3: a failed call against a fresh budget leaves both counters
at their pre-reservation values. -/
theorem c3_failure_refund_roundtrip_witness :
    (executeWithRateLimitEvent ⟨400, 500000⟩ ⟨3, 7, 0⟩ ⟨5, 5, none, 0⟩).1.requestCount
        = (checkRateLimit ⟨400, 500000⟩ ⟨3, 7, 0⟩ 5 5).1.requestCount ∧
      (executeWithRateLimitEvent ⟨400, 500000⟩ ⟨3, 7, 0⟩ ⟨5, 5, none, 0⟩).1.dailyRequestCount
        = (checkRateLimit ⟨400, 500000⟩ ⟨3, 7, 0⟩ 5 5).1.dailyRequestCount :=
  c3_failure_refund_roundtrip ⟨400, 500000⟩ ⟨3, 7, 0⟩ ⟨5, 5, none, 0⟩ rfl (by decide)

/-- Modelled from the spec (for comparison in claim C5 only, not from the
source): a budget with two independent window starts, in which the minute
counter resets when more than 60s have elapsed since windowStartMinute and
both counters reset when more than 24h have elapsed since windowStartDay, the
day check taking precedence. -/
structure SpecBudget where
  requestsThisMinute : Nat
  requestsToday : Nat
  windowStartMinute : Nat
  windowStartDay : Nat
deriving Repr, DecidableEq

/-- Modelled from the spec (for comparison in claim C5 only): one successful
reservation under the independent-window reading, for a trace that stays below
both limits. -/
def specReserve (s : SpecBudget) (now : Nat) : SpecBudget :=
  let s1 :=
    if now - s.windowStartDay > oneDayMs then
      { requestsThisMinute := 0, requestsToday := 0,
        windowStartMinute := now, windowStartDay := now }
    else if now - s.windowStartMinute > oneMinuteMs then
      { s with requestsThisMinute := 0, windowStartMinute := now }
    else s
  { s1 with
    requestsThisMinute := s1.requestsThisMinute + 1
    requestsToday := s1.requestsToday + 1 }

/-- The trace refuting C5: calls at t = 0, t = 61s and t = 24h + 1ms, all
successful and far below the limits 10/minute and 10/day. -/
def c5Events : List CallEvent :=
  [⟨0, 0, some .imageData, 0⟩, ⟨61000, 61000, some .imageData, 0⟩,
    ⟨86400001, 86400001, some .imageData, 0⟩]

/-- Counterexample to C5.  The claim says the daily counter is reset once more
than 24 hours have elapsed since the day window opened, regardless of
intervening minute rollovers.  On the trace c5Events the minute rollover at
t = 61s advances the single shared lastResetTime, so at t = 24h + 1ms the code
does not reset the daily counter (it reaches 3), while the independent-window
reading of the claim would have reset it (it would be 1 after the reservation). -/
theorem c5_counterexample :
    (c5Events.foldl (budgetStep ⟨10, 10⟩) ⟨0, 0, 0⟩).dailyRequestCount = 3 ∧
      ((c5Events.map CallEvent.now).foldl specReserve ⟨0, 0, 0, 0⟩).requestsToday = 1 ∧
      (3 : Nat) ≠ 1 := by
  decide

/-- C5 as amended: the code keeps a single shared reset timestamp
lastResetTime for both windows.  On a successful reservation strictly under
both limits: if more than 24h elapsed since the last reset, both counters are
reset (day check first) and then incremented; otherwise, if more than 60s
elapsed since the last reset, only the minute counter is reset and the shared
timestamp advances — thereby postponing the next daily reset; otherwise both
counters are simply incremented.  The daily counter is therefore reset 24
hours after the most recent reset of either kind, not necessarily 24 hours
after the day window opened. -/
theorem c5_amended (cfg : RateLimits) (s : BudgetState) (e : CallEvent)
    (p : GenPayload) (hb : e.behavior = some p)
    (hm : 1 ≤ cfg.requestsPerMinute) (hd : 1 ≤ cfg.requestsPerDay)
    (hdc : s.dailyRequestCount < cfg.requestsPerDay)
    (hrc : s.requestCount < cfg.requestsPerMinute) :
    (oneDayMs < e.now - s.lastResetTime →
        budgetStep cfg s e = ⟨1, 1, e.now⟩) ∧
      (e.now - s.lastResetTime ≤ oneDayMs → oneMinuteMs < e.now - s.lastResetTime →
        budgetStep cfg s e = ⟨1, s.dailyRequestCount + 1, e.now⟩) ∧
      (e.now - s.lastResetTime ≤ oneMinuteMs →
        budgetStep cfg s e = ⟨s.requestCount + 1, s.dailyRequestCount + 1, s.lastResetTime⟩) := by
  have hd0 : ¬ (0 : Nat) ≥ cfg.requestsPerDay := by omega
  have hm0 : ¬ (0 : Nat) ≥ cfg.requestsPerMinute := by omega
  have hdk : ¬ s.dailyRequestCount ≥ cfg.requestsPerDay := by omega
  have hmk : ¬ s.requestCount ≥ cfg.requestsPerMinute := by omega
  refine ⟨fun hday => ?_, fun hnoday hmin => ?_, fun hnomin => ?_⟩
  · unfold budgetStep executeWithRateLimitEvent checkRateLimit rollover
    simp [hday, hb, hd0, hm0]
  · unfold budgetStep executeWithRateLimitEvent checkRateLimit rollover
    simp [Nat.not_lt.mpr hnoday, hmin, hb, hdk, hm0]
  · have hnoday2 : ¬ oneDayMs < e.now - s.lastResetTime := by
      unfold oneDayMs oneMinuteMs at *
      omega
    have hnomin2 : ¬ oneMinuteMs < e.now - s.lastResetTime := Nat.not_lt.mpr hnomin
    unfold budgetStep executeWithRateLimitEvent checkRateLimit rollover
    simp [hnoday2, hnomin2, hb, hdk, hmk]

/-- Witness for C5 as amended: a reservation 61s after the last reset resets
only the minute counter and advances the shared timestamp. -/
theorem c5_amended_witness :
    budgetStep ⟨10, 10⟩ ⟨1, 1, 0⟩ ⟨61000, 61000, some .imageData, 0⟩ = ⟨1, 2, 61000⟩ :=
  (c5_amended ⟨10, 10⟩ ⟨1, 1, 0⟩ ⟨61000, 61000, some .imageData, 0⟩ .imageData rfl
      (by decide) (by decide) (by decide) (by decide)).2.1 (by decide) (by decide)

/-- The fallback aesthetic pool of generatePhotoshootScenes (line 455). -/
def fallbackAesthetics : List String :=
  ["Minimalist Modern", "Old money", "French new wave"]

/-- The fallback scene built in the catch clause of generatePhotoshootScenes
(lines 458-469); rnd is the Math.random() draw, reduced mod 3 exactly as
Math.floor(Math.random() * fallbackAesthetics.length) lands in 0..2. -/
def fallbackScene (rnd : Nat) : PhotoshootSceneRecord where
  aesthetic := fallbackAesthetics.getD (rnd % 3) "Minimalist Modern"
  setting := "Clean, elegant studio with neutral backdrop"
  mood := "Professional and sophisticated"
  lighting := "Soft natural lighting"
  styling := "Clean, minimal accessories"
  model_description := "Confident model with natural pose"
  composition := "Center-focused with negative space"
  props := ["minimal furniture", "clean lines", "elegant decor"]

/-- generatePhotoshootScenes (lines 313-471): one rate-limited structured
call; on success the parsed record is returned as a one-element array; any
failure (rate-limit error thrown by the budget, remote error, or an
unparsable response) is caught and replaced by a one-element array holding the
fallback scene.  Returns the budget, the scene list, and whether the fallback
was used. -/
def generatePhotoshootScenes (cfg : RateLimits) (b : BudgetState) (e : CallEvent) :
    BudgetState × List PhotoshootSceneRecord × Bool :=
  match executeWithRateLimitEvent cfg b e with
  | (b2, .opOk (.sceneJson s)) => (b2, [s], false)
  | (b2, .opOk _) => (b2, [fallbackScene e.rnd], true)
  | (b2, .dailyError) => (b2, [fallbackScene e.rnd], true)
  | (b2, .opError) => (b2, [fallbackScene e.rnd], true)

/-- All fields of a scene record are present and non-empty. -/
def sceneFieldsNonEmpty (s : PhotoshootSceneRecord) : Prop :=
  s.aesthetic ≠ "" ∧ s.setting ≠ "" ∧ s.mood ≠ "" ∧ s.lighting ≠ "" ∧
    s.styling ≠ "" ∧ s.model_description ≠ "" ∧ s.composition ≠ "" ∧ s.props ≠ []

instance (s : PhotoshootSceneRecord) : Decidable (sceneFieldsNonEmpty s) := by
  unfold sceneFieldsNonEmpty
  infer_instance

/-- C8: whenever the structured scene call does not come back as a parseable
scene (the remote call throws, the budget throws its rate-limit error, or the
response is unparsable), generatePhotoshootScenes raises nothing and returns a
fallback scene drawn from the fixed three-element pool, with every scene field
present and non-empty, so the item pipeline can proceed. -/
theorem c8_scene_fallback_total (cfg : RateLimits) (b : BudgetState) (e : CallEvent)
    (h : ∀ s, (executeWithRateLimitEvent cfg b e).2 ≠ ExecOutcome.opOk (.sceneJson s)) :
    generatePhotoshootScenes cfg b e
        = ((executeWithRateLimitEvent cfg b e).1, [fallbackScene e.rnd], true) ∧
      (∃ k, k < 3 ∧ fallbackScene e.rnd = fallbackScene k) ∧
      sceneFieldsNonEmpty (fallbackScene e.rnd) := by
  refine ⟨?_, ⟨e.rnd % 3, Nat.mod_lt _ (by decide), ?_⟩, ?_⟩
  · unfold generatePhotoshootScenes
    rcases hx : executeWithRateLimitEvent cfg b e with ⟨b2, out⟩
    cases out with
    | dailyError => simp
    | opError => simp
    | opOk p =>
        cases p with
        | sceneJson s => exact absurd (by rw [hx]) (h s)
        | imageData => simp
        | emptyResponse => simp
  · have hmod : e.rnd % 3 % 3 = e.rnd % 3 := Nat.mod_mod_of_dvd _ dvd_rfl
    unfold fallbackScene
    rw [hmod]
  · have h3 : e.rnd % 3 = 0 ∨ e.rnd % 3 = 1 ∨ e.rnd % 3 = 2 := by omega
    rcases h3 with h3 | h3 | h3 <;> rw [sceneFieldsNonEmpty] <;>
      simp [fallbackScene, h3, fallbackAesthetics]

/-- Witness for C8: a scene call whose remote operation throws. -/
theorem c8_scene_fallback_total_witness :
    generatePhotoshootScenes ⟨400, 500000⟩ ⟨0, 0, 0⟩ ⟨5, 5, none, 4⟩
        = ((executeWithRateLimitEvent ⟨400, 500000⟩ ⟨0, 0, 0⟩ ⟨5, 5, none, 4⟩).1,
            [fallbackScene 4], true) ∧
      (∃ k, k < 3 ∧ fallbackScene 4 = fallbackScene k) ∧
      sceneFieldsNonEmpty (fallbackScene 4) :=
  c8_scene_fallback_total ⟨400, 500000⟩ ⟨0, 0, 0⟩ ⟨5, 5, none, 4⟩
    (fun _ hx => ExecOutcome.noConfusion (show ExecOutcome.opError = _ from hx))

/-- Local state of the retry loop of generateImages (lines 596-604), together
with the observations the verification tracks: the number of image-generation
attempts made, the backoff waits performed (in ms, in order), the threaded
budget, the position in the call-event stream, and a flag recording that the
bounded unfolding of the while loop never ran out of fuel (see runStep). -/
structure LoopState where
  retryCount : Nat
  sceneRegenerateCount : Nat
  success : Bool
  attempts : Nat
  delays : List Nat
  budget : BudgetState
  callIdx : Nat
  fuelOk : Bool
deriving Repr, DecidableEq

/-- The scene-regeneration block (lines 636-657 and 669-690): one call to
generatePhotoshootScenes, whose returned array is always non-empty (success or
fallback) and which never throws, so the newScenes check always passes:
sceneRegenerateCount is incremented and retryCount decremented. -/
def regenScene (cfg : RateLimits) (oracle : Nat → CallEvent) (st : LoopState) : LoopState :=
  let r := generatePhotoshootScenes cfg st.budget (oracle st.callIdx)
  { st with
    budget := r.1
    callIdx := st.callIdx + 1
    sceneRegenerateCount := st.sceneRegenerateCount + 1
    retryCount := st.retryCount - 1 }

/-- The exponential backoff of line 708: min(1000 * 2^retryCount, 10000). -/
def backoffDelay (rc : Nat) : Nat := min (1000 * 2 ^ rc) 10000

/-- One iteration of the while loop of lines 604-713.  The generation call runs
under executeWithRateLimit; a response with inline image data sets success; a
response without image data takes the branch of lines 629-659 (retry counted,
scene regeneration after the first such failure, no backoff wait); a thrown
error — whether the budget daily-limit error or a remote failure, the catch at
line 661 does not distinguish them — takes the branch of lines 661-712 (retry
counted, scene regeneration when retryCount reaches 2, fallback-prompt swap
untracked, backoff wait).  The per-step try/catch of lines 533 and 722-732,
including its 60-second quota wait, is not reachable from a generation-call
failure: every statement of the step body that can throw sits inside the while
own try/catch of the while loop. -/
def stepIter (cfg : RateLimits) (oracle : Nat → CallEvent) (isPhotoshoot : Bool)
    (st : LoopState) : LoopState :=
  let e := oracle st.callIdx
  let r := executeWithRateLimitEvent cfg st.budget e
  let st1 := { st with
    budget := r.1
    callIdx := st.callIdx + 1
    attempts := st.attempts + 1 }
  match r.2 with
  | .opOk .imageData => { st1 with success := true }
  | .opOk _ =>
      let st2 := { st1 with retryCount := st1.retryCount + 1 }
      if isPhotoshoot = true ∧ st2.retryCount = 1 ∧ st2.sceneRegenerateCount < 2 then
        regenScene cfg oracle st2
      else st2
  | _ =>
      let st2 := { st1 with retryCount := st1.retryCount + 1 }
      if st2.retryCount < 3 then
        let st3 :=
          if isPhotoshoot = true ∧ st2.retryCount = 2 ∧ st2.sceneRegenerateCount < 2 then
            regenScene cfg oracle st2
          else st2
        { st3 with delays := st3.delays ++ [backoffDelay st3.retryCount] }
      else st2

/-- Bounded unfolding of the while loop (retryCount < maxRetries && !success,
line 604).  Fuel only bounds the unfolding of the model: fuelOk is cleared if
the guard still holds when the fuel runs out, and c10_loop_termination shows
fuel 5 always suffices, so with fuel 5 this is the loop of the source. -/
def runStep (cfg : RateLimits) (oracle : Nat → CallEvent) (isPhotoshoot : Bool) :
    Nat → LoopState → LoopState
  | 0, st =>
      if st.success = false ∧ st.retryCount < 3 then { st with fuelOk := false } else st
  | n + 1, st =>
      if st.success = false ∧ st.retryCount < 3 then
        runStep cfg oracle isPhotoshoot n (stepIter cfg oracle isPhotoshoot st)
      else st

/-- Loop state at entry of the per-step while loop (lines 597-602). -/
def initLoop (b : BudgetState) (idx : Nat) : LoopState :=
  { retryCount := 0, sceneRegenerateCount := 0, success := false, attempts := 0,
    delays := [], budget := b, callIdx := idx, fuelOk := true }

/-- Termination measure of the retry loop: retries still allowed plus scene
regenerations still allowed. -/
def loopMeasure (st : LoopState) : Nat :=
  (3 - st.retryCount) + (2 - st.sceneRegenerateCount)

lemma runStep_of_success (cfg : RateLimits) (oracle : Nat → CallEvent)
    (isPh : Bool) (fuel : Nat) (st : LoopState) (h : st.success = true) :
    runStep cfg oracle isPh fuel st = st := by
  cases fuel <;> simp [runStep, h]

lemma stepIter_spec (cfg : RateLimits) (oracle : Nat → CallEvent) (isPh : Bool)
    (st : LoopState) (hs : st.success = false) (hr : st.retryCount < 3)
    (hsr : st.sceneRegenerateCount ≤ 2) :
    (stepIter cfg oracle isPh st).attempts = st.attempts + 1 ∧
      (stepIter cfg oracle isPh st).fuelOk = st.fuelOk ∧
      ((stepIter cfg oracle isPh st).success = true ∨
        ((stepIter cfg oracle isPh st).success = false ∧
          (stepIter cfg oracle isPh st).retryCount ≤ 3 ∧
          (stepIter cfg oracle isPh st).sceneRegenerateCount ≤ 2 ∧
          loopMeasure (stepIter cfg oracle isPh st) + 1 = loopMeasure st)) := by
  rcases hx : executeWithRateLimitEvent cfg st.budget (oracle st.callIdx) with ⟨b2, out⟩
  cases out with
  | dailyError =>
      simp only [stepIter, hx]
      split
      · split
        · next hcond2 =>
            obtain ⟨hph, hrc2, hsr2⟩ := hcond2
            refine ⟨?_, ?_, Or.inr ⟨?_, ?_, ?_, ?_⟩⟩ <;>
              simp [regenScene, loopMeasure, hs] <;> omega
        · refine ⟨?_, ?_, Or.inr ⟨?_, ?_, ?_, ?_⟩⟩ <;>
            simp [loopMeasure, hs] <;> omega
      · refine ⟨?_, ?_, Or.inr ⟨?_, ?_, ?_, ?_⟩⟩ <;>
          simp [loopMeasure, hs] <;> omega
  | opError =>
      simp only [stepIter, hx]
      split
      · split
        · next hcond2 =>
            obtain ⟨hph, hrc2, hsr2⟩ := hcond2
            refine ⟨?_, ?_, Or.inr ⟨?_, ?_, ?_, ?_⟩⟩ <;>
              simp [regenScene, loopMeasure, hs] <;> omega
        · refine ⟨?_, ?_, Or.inr ⟨?_, ?_, ?_, ?_⟩⟩ <;>
            simp [loopMeasure, hs] <;> omega
      · refine ⟨?_, ?_, Or.inr ⟨?_, ?_, ?_, ?_⟩⟩ <;>
          simp [loopMeasure, hs] <;> omega
  | opOk p =>
      cases p with
      | imageData =>
          simp only [stepIter, hx]
          refine ⟨?_, ?_, Or.inl ?_⟩ <;> simp
      | sceneJson s =>
          simp only [stepIter, hx]
          split
          · next hcond =>
              obtain ⟨hph, hrc2, hsr2⟩ := hcond
              refine ⟨?_, ?_, Or.inr ⟨?_, ?_, ?_, ?_⟩⟩ <;>
                simp [regenScene, loopMeasure, hs] <;> omega
          · refine ⟨?_, ?_, Or.inr ⟨?_, ?_, ?_, ?_⟩⟩ <;>
              simp [loopMeasure, hs] <;> omega
      | emptyResponse =>
          simp only [stepIter, hx]
          split
          · next hcond =>
              obtain ⟨hph, hrc2, hsr2⟩ := hcond
              refine ⟨?_, ?_, Or.inr ⟨?_, ?_, ?_, ?_⟩⟩ <;>
                simp [regenScene, loopMeasure, hs] <;> omega
          · refine ⟨?_, ?_, Or.inr ⟨?_, ?_, ?_, ?_⟩⟩ <;>
              simp [loopMeasure, hs] <;> omega

lemma runStep_spec (cfg : RateLimits) (oracle : Nat → CallEvent) (isPh : Bool) :
    ∀ (fuel : Nat) (st : LoopState), st.retryCount ≤ 3 →
      st.sceneRegenerateCount ≤ 2 → loopMeasure st ≤ fuel →
      (runStep cfg oracle isPh fuel st).fuelOk = st.fuelOk ∧
        (runStep cfg oracle isPh fuel st).attempts ≤ st.attempts + loopMeasure st := by
  intro fuel
  induction fuel with
  | zero =>
      intro st hrc hsr hmeas
      have hng : ¬ (st.success = false ∧ st.retryCount < 3) := by
        rintro ⟨h1, h2⟩
        unfold loopMeasure at hmeas
        omega
      rw [runStep, if_neg hng]
      exact ⟨rfl, Nat.le_add_right _ _⟩
  | succ n ih =>
      intro st hrc hsr hmeas
      by_cases hguard : st.success = false ∧ st.retryCount < 3
      · obtain ⟨hs, hr⟩ := hguard
        have hmeas1 : 1 ≤ loopMeasure st := by
          unfold loopMeasure
          omega
        rw [runStep, if_pos ⟨hs, hr⟩]
        obtain ⟨hA, hB, hC⟩ := stepIter_spec cfg oracle isPh st hs hr hsr
        rcases hC with hsucc | ⟨hs2, hrc2, hsr2, hmeas2⟩
        · rw [runStep_of_success cfg oracle isPh n _ hsucc]
          exact ⟨hB, by omega⟩
        · have hm2 : loopMeasure (stepIter cfg oracle isPh st) ≤ n := by omega
          obtain ⟨ih1, ih2⟩ := ih (stepIter cfg oracle isPh st) hrc2 hsr2 hm2
          refine ⟨by rw [ih1, hB], ?_⟩
          omega
      · rw [runStep, if_neg hguard]
        exact ⟨rfl, Nat.le_add_right _ _⟩

/-- C10: the per-step retry loop always terminates: since the retryCount
decrement after a successful scene regeneration is gated by
sceneRegenerateCount < maxSceneRegenerates (= 2), the loop performs at most
maxRetries + maxSceneRegenerates = 5 underlying generation attempts before the
step ends in success or exhaustion — so unfolding the while loop 5 times never
leaves the guard still open (fuelOk stays true). -/
theorem c10_loop_termination (cfg : RateLimits) (oracle : Nat → CallEvent)
    (isPh : Bool) (b : BudgetState) (idx : Nat) :
    (runStep cfg oracle isPh 5 (initLoop b idx)).fuelOk = true ∧
      (runStep cfg oracle isPh 5 (initLoop b idx)).attempts ≤ 5 := by
  have h := runStep_spec cfg oracle isPh 5 (initLoop b idx)
    (by simp [initLoop]) (by simp [initLoop]) (by simp [initLoop, loopMeasure])
  simpa [initLoop, loopMeasure] using h

/-- Per-step observations extracted from the final loop state. -/
structure StepRecord where
  success : Bool
  attempts : Nat
  sceneRegens : Nat
  delays : List Nat
  fuelOk : Bool
deriving Repr, DecidableEq

def recordOf (st : LoopState) : StepRecord :=
  { success := st.success, attempts := st.attempts,
    sceneRegens := st.sceneRegenerateCount, delays := st.delays, fuelOk := st.fuelOk }

/-- Accumulated result of generateImages over the five declared steps: the
threaded budget and call position, one StepRecord per step in declaration
order, and the generatedImages array modelled as the list of declaration-order
slot indices whose file path was pushed (line 620) — a path is pushed exactly
when the step succeeds, and the path generated_(i+1)_(type).png identifies its
slot i. -/
structure RunAcc where
  budget : BudgetState
  callIdx : Nat
  records : List StepRecord
  pushed : List Nat
deriving Repr, DecidableEq

/-- One iteration of the for loop over imageTypes (lines 532-733), run with
loop fuel 5, which by c10_loop_termination never runs out. -/
def runOneStep (cfg : RateLimits) (oracle : Nat → CallEvent) (acc : RunAcc)
    (slot : Nat) (isPhotoshoot : Bool) : RunAcc :=
  let st := runStep cfg oracle isPhotoshoot 5 (initLoop acc.budget acc.callIdx)
  { budget := st.budget
    callIdx := st.callIdx
    records := acc.records ++ [recordOf st]
    pushed := acc.pushed ++ (if st.success = true then [slot] else []) }

/-- generateImages (lines 504-740): one scene-resolution call (which never
throws — on failure it yields the fallback scene, so selectedScene is always
present and the dead no-scene fallback of lines 588-592 is never taken),
followed by the five declared steps in order: garment full view, garment
close-up, garment angular, photoshoot 1, photoshoot 2 — the last two
scene-dependent. -/
def generateImagesRun (cfg : RateLimits) (oracle : Nat → CallEvent)
    (b0 : BudgetState) : RunAcc :=
  let r0 := generatePhotoshootScenes cfg b0 (oracle 0)
  let a0 : RunAcc := { budget := r0.1, callIdx := 1, records := [], pushed := [] }
  let a1 := runOneStep cfg oracle a0 0 false
  let a2 := runOneStep cfg oracle a1 1 false
  let a3 := runOneStep cfg oracle a2 2 false
  let a4 := runOneStep cfg oracle a3 3 true
  let a5 := runOneStep cfg oracle a4 4 true
  a5

/-- The metadata imageTypes slots built in processProducts (lines 967-995):
slot j of the emitted record carries uploadedUrls[j] or null, where
uploadedUrls is positionally aligned with the pushed artifact list (each
upload yields either a remote URL or a local-path fallback, one entry per
generated artifact, lines 925-945).  An artifact is identified here by its
originating declaration slot. -/
def metaSlotUrls (run : RunAcc) : List (Option Nat) :=
  [run.pushed.get? 0, run.pushed.get? 1, run.pushed.get? 2,
    run.pushed.get? 3, run.pushed.get? 4]

lemma enumFrom_append_one {A : Type} (l : List A) (r : A) (n : Nat) :
    (l ++ [r]).enumFrom n = l.enumFrom n ++ [(n + l.length, r)] := by
  induction l generalizing n with
  | nil => simp
  | cons a t ih =>
      simp [List.enumFrom_cons, ih (n + 1)]
      omega

lemma runOneStep_invariant (cfg : RateLimits) (oracle : Nat → CallEvent)
    (acc : RunAcc) (isPh : Bool)
    (hpush : acc.pushed
      = ((acc.records.enum.filter (fun ip => ip.2.success)).map (fun ip => ip.1))) :
    (runOneStep cfg oracle acc acc.records.length isPh).pushed
      = (((runOneStep cfg oracle acc acc.records.length isPh).records.enum.filter
            (fun ip => ip.2.success)).map (fun ip => ip.1)) := by
  simp only [List.enum_eq_enumFrom] at hpush
  simp only [runOneStep, List.enum_eq_enumFrom]
  rw [hpush, enumFrom_append_one, List.filter_append, List.map_append]
  congr 1
  cases h : (runStep cfg oracle isPh 5 (initLoop acc.budget acc.callIdx)).success <;>
    simp [recordOf, h]

/-- C2 as amended: for every processed item the loop produces exactly five
per-step outcomes in declaration order, but the generatedImages array receives
one entry per successful step only, in declaration order — failed steps
contribute no entry, so the array can be shorter than five and the positional
metadata slots shift onto it. -/
theorem c2_amended (cfg : RateLimits) (oracle : Nat → CallEvent) (b0 : BudgetState) :
    (generateImagesRun cfg oracle b0).records.length = 5 ∧
      (generateImagesRun cfg oracle b0).pushed
        = (((generateImagesRun cfg oracle b0).records.enum.filter
              (fun ip => ip.2.success)).map (fun ip => ip.1)) := by
  refine ⟨rfl, ?_⟩
  have h1 := runOneStep_invariant cfg oracle
    ⟨(generatePhotoshootScenes cfg b0 (oracle 0)).1, 1, [], []⟩ false rfl
  have h2 := runOneStep_invariant cfg oracle _ false h1
  have h3 := runOneStep_invariant cfg oracle _ false h2
  have h4 := runOneStep_invariant cfg oracle _ true h3
  have h5 := runOneStep_invariant cfg oracle _ true h4
  exact h5

/-- Call events refuting C2: the scene call and steps 1, 3, 4, 5 succeed,
step 2 (garment close-up) fails on all three attempts. -/
def c2Events : List CallEvent :=
  [⟨0, 0, some (.sceneJson (fallbackScene 0)), 0⟩,
    ⟨0, 0, some .imageData, 0⟩,
    ⟨0, 0, none, 0⟩, ⟨0, 0, none, 0⟩, ⟨0, 0, none, 0⟩,
    ⟨0, 0, some .imageData, 0⟩,
    ⟨0, 0, some .imageData, 0⟩,
    ⟨0, 0, some .imageData, 0⟩]

def c2Oracle : Nat → CallEvent := fun n => c2Events.getD n ⟨0, 0, none, 0⟩

/-- Counterexample to C2.  With the close-up step failing and the other four
steps succeeding, the emitted per-item result holds 4 entries, not the claimed
5, and metadata slot 1 — declared garment_closeup — carries the artifact of
slot 2 (the angular view): the recorded URLs no longer correspond to their
declared step kinds. -/
theorem c2_counterexample :
    (generateImagesRun ⟨400, 500000⟩ c2Oracle ⟨0, 0, 0⟩).pushed.length = 4 ∧
      ¬ ((generateImagesRun ⟨400, 500000⟩ c2Oracle ⟨0, 0, 0⟩).pushed.length = 5) ∧
      metaSlotUrls (generateImagesRun ⟨400, 500000⟩ c2Oracle ⟨0, 0, 0⟩)
        = [some 0, some 2, some 3, some 4, none] := by
  decide

lemma exec_behavior_none (cfg : RateLimits) (b : BudgetState) (e : CallEvent)
    (h : e.behavior = none) (p : GenPayload) :
    (executeWithRateLimitEvent cfg b e).2 ≠ ExecOutcome.opOk p := by
  unfold executeWithRateLimitEvent
  rw [h]
  by_cases hc : (checkRateLimit cfg b e.now e.resumeTime).2 <;> simp [hc]

/-- A generation attempt whose remote call throws: the catch at line 661
counts a retry and, when retries remain, performs the backoff wait of
line 708; for a step that is not scene-dependent no regeneration applies. -/
lemma stepIter_throw (cfg : RateLimits) (oracle : Nat → CallEvent) (st : LoopState)
    (h : (oracle st.callIdx).behavior = none) :
    stepIter cfg oracle false st =
      { st with
        budget := (executeWithRateLimitEvent cfg st.budget (oracle st.callIdx)).1
        callIdx := st.callIdx + 1
        attempts := st.attempts + 1
        retryCount := st.retryCount + 1
        delays := st.delays ++
          (if st.retryCount + 1 < 3 then [backoffDelay (st.retryCount + 1)] else []) } := by
  rcases hx : executeWithRateLimitEvent cfg st.budget (oracle st.callIdx) with ⟨b2, out⟩
  cases out with
  | opOk p =>
      have h2 : (executeWithRateLimitEvent cfg st.budget (oracle st.callIdx)).2
          = ExecOutcome.opOk p := by rw [hx]
      exact absurd h2 (exec_behavior_none cfg st.budget (oracle st.callIdx) h p)
  | dailyError =>
      by_cases hrc : st.retryCount + 1 < 3 <;> simp [stepIter, hx, hrc]
  | opError =>
      by_cases hrc : st.retryCount + 1 < 3 <;> simp [stepIter, hx, hrc]

/-- C6 as amended: for a step that is not scene-dependent and whose remote
call always throws, the loop makes exactly 3 attempts; the wait before retry
attempt n (n = 2, 3) is min(baseDelay * 2^(n-1), 10000) — the exponent is the
number of failures so far, giving waits of 2000ms then 4000ms with
baseDelay = 1000 — and the step ends unsuccessful: the failure is only
logged, no outcome entry is produced (the generatedImages array receives no
entry for the step, see c2_amended). -/
theorem c6_amended (cfg : RateLimits) (oracle : Nat → CallEvent) (b : BudgetState)
    (idx : Nat) (hall : ∀ n, (oracle n).behavior = none) :
    (runStep cfg oracle false 5 (initLoop b idx)).attempts = 3 ∧
      (runStep cfg oracle false 5 (initLoop b idx)).success = false ∧
      (runStep cfg oracle false 5 (initLoop b idx)).delays = [2000, 4000] := by
  have h1 : stepIter cfg oracle false (initLoop b idx)
      = ⟨1, 0, false, 1, [backoffDelay 1],
          (executeWithRateLimitEvent cfg b (oracle idx)).1, idx + 1, true⟩ := by
    rw [stepIter_throw cfg oracle (initLoop b idx) (hall idx)]
    simp [initLoop]
  have h2 : stepIter cfg oracle false
      (⟨1, 0, false, 1, [backoffDelay 1],
          (executeWithRateLimitEvent cfg b (oracle idx)).1, idx + 1, true⟩ : LoopState)
      = ⟨2, 0, false, 2, [backoffDelay 1, backoffDelay 2],
          (executeWithRateLimitEvent cfg
            (executeWithRateLimitEvent cfg b (oracle idx)).1 (oracle (idx + 1))).1,
          idx + 2, true⟩ := by
    rw [stepIter_throw cfg oracle _ (hall (idx + 1))]
    simp
  have h3 : stepIter cfg oracle false
      (⟨2, 0, false, 2, [backoffDelay 1, backoffDelay 2],
          (executeWithRateLimitEvent cfg
            (executeWithRateLimitEvent cfg b (oracle idx)).1 (oracle (idx + 1))).1,
          idx + 2, true⟩ : LoopState)
      = ⟨3, 0, false, 3, [backoffDelay 1, backoffDelay 2],
          (executeWithRateLimitEvent cfg
            (executeWithRateLimitEvent cfg
              (executeWithRateLimitEvent cfg b (oracle idx)).1 (oracle (idx + 1))).1
            (oracle (idx + 2))).1,
          idx + 3, true⟩ := by
    rw [stepIter_throw cfg oracle _ (hall (idx + 2))]
    simp
  have hrun : runStep cfg oracle false 5 (initLoop b idx)
      = ⟨3, 0, false, 3, [backoffDelay 1, backoffDelay 2],
          (executeWithRateLimitEvent cfg
            (executeWithRateLimitEvent cfg
              (executeWithRateLimitEvent cfg b (oracle idx)).1 (oracle (idx + 1))).1
            (oracle (idx + 2))).1,
          idx + 3, true⟩ := by
    rw [show (5 : Nat) = 4 + 1 from rfl, runStep, if_pos (by simp [initLoop])]
    rw [h1]
    rw [show (4 : Nat) = 3 + 1 from rfl, runStep, if_pos (by simp)]
    rw [h2]
    rw [show (3 : Nat) = 2 + 1 from rfl, runStep, if_pos (by simp)]
    rw [h3]
    rw [show (2 : Nat) = 1 + 1 from rfl, runStep, if_neg (by simp)]
  rw [hrun]
  refine ⟨rfl, rfl, ?_⟩
  simp [backoffDelay]

/-- An oracle whose every remote call throws. -/
def throwOracle : Nat → CallEvent := fun _ => ⟨0, 0, none, 0⟩

/-- Witness for C6 as amended: a concrete always-throwing step. -/
theorem c6_amended_witness :
    (runStep ⟨400, 500000⟩ throwOracle false 5 (initLoop ⟨0, 0, 0⟩ 0)).attempts = 3 ∧
      (runStep ⟨400, 500000⟩ throwOracle false 5 (initLoop ⟨0, 0, 0⟩ 0)).success = false ∧
      (runStep ⟨400, 500000⟩ throwOracle false 5 (initLoop ⟨0, 0, 0⟩ 0)).delays
        = [2000, 4000] :=
  c6_amended ⟨400, 500000⟩ throwOracle ⟨0, 0, 0⟩ 0 (fun _ => rfl)

/-- Counterexample to C6.  The claim gives the wait before retry attempt n as
min(baseDelay * 2^n, capDelay): for the retry attempt n = 2 that is
min(1000 * 2^2, 10000) = 4000ms.  The code computes the wait at line 708 from
the number of failures so far (retryCount = 1 before attempt 2), so the first
observed wait of an always-failing step is 2000ms, not 4000ms. -/
theorem c6_counterexample :
    (runStep ⟨400, 500000⟩ throwOracle false 5 (initLoop ⟨0, 0, 0⟩ 0)).delays.getD 0 0
        = 2000 ∧
      ¬ ((runStep ⟨400, 500000⟩ throwOracle false 5 (initLoop ⟨0, 0, 0⟩ 0)).delays.getD 0 0
        = min (1000 * 2 ^ 2) 10000) := by
  decide

/-- C7 evaluated at its failing input: a step whose every generation attempt
fails with the quota / rate-limit-classified error.  The catch at line 661
does not inspect the error, so each such attempt is counted against
maxRetries — after exactly 3 attempts the step is exhausted — and only the
ordinary exponential waits of 2000ms and 4000ms happen, never the 60-second
back-off: the rate-limit special case of lines 722-732 sits in the per-step
outer catch, which no generation-call failure can reach because the while
body catches every exception itself. -/
theorem c7_quota_not_special_cased :
    (runStep ⟨400, 500000⟩ throwOracle false 5 (initLoop ⟨0, 0, 0⟩ 7)).attempts = 3 ∧
      (runStep ⟨400, 500000⟩ throwOracle false 5 (initLoop ⟨0, 0, 0⟩ 7)).success = false ∧
      (runStep ⟨400, 500000⟩ throwOracle false 5 (initLoop ⟨0, 0, 0⟩ 7)).delays
          = [2000, 4000] ∧
      ¬ (60000 ∈ (runStep ⟨400, 500000⟩ throwOracle false 5 (initLoop ⟨0, 0, 0⟩ 7)).delays) := by
  decide

/-- An oracle whose remote calls would all return image data; against an
exhausted daily budget none of them is reached. -/
def saturatedOracle : Nat → CallEvent := fun _ => ⟨0, 0, some .imageData, 0⟩

/-- Counterexample to C4.  The claim says the daily-limit error propagates to
the top-level caller as a terminal failure of the run when a reservation is
attempted at the perDay limit — under that reading at most one reservation
attempt can occur.  With the daily counter at its limit of 5, the run instead
performs 3 + 3 + 3 + 5 + 5 = 19 generation attempts across all five steps
(each daily-limit error is caught by the per-step retry loop and the scene
calls are absorbed by the resolver fallback), finishes normally with every
step failed, and leaves the counters untouched. -/
theorem c4_counterexample :
    ((generateImagesRun ⟨400, 5⟩ saturatedOracle ⟨0, 5, 0⟩).records.map
        (fun r => r.attempts)) = [3, 3, 3, 5, 5] ∧
      ¬ (((generateImagesRun ⟨400, 5⟩ saturatedOracle ⟨0, 5, 0⟩).records.map
          (fun r => r.attempts)).sum ≤ 1) ∧
      (generateImagesRun ⟨400, 5⟩ saturatedOracle ⟨0, 5, 0⟩).records.all
          (fun r => !r.success) = true := by
  decide

/-- C4 as amended: a reservation attempted with the daily counter at the
perDay limit (and no day rollover pending) makes checkRateLimit throw the
daily-limit error at once — no waiting, no retry, no counter increment — but
the error does not abort the run: inside generateImages it is caught by the
per-step retry loop (and by the scene resolver fallback), every step is
exhausted after its usual attempt budget, and processing continues to the end
with all steps failed and the budget unchanged. -/
theorem c4_amended :
    (∀ (cfg : RateLimits) (s : BudgetState) (now resumeTime : Nat),
        cfg.requestsPerDay ≤ (rollover s now).dailyRequestCount →
          checkRateLimit cfg s now resumeTime = (rollover s now, true)) ∧
      ((generateImagesRun ⟨400, 5⟩ saturatedOracle ⟨0, 5, 0⟩).records.map
          (fun r => r.attempts) = [3, 3, 3, 5, 5] ∧
        (generateImagesRun ⟨400, 5⟩ saturatedOracle ⟨0, 5, 0⟩).records.all
          (fun r => !r.success) = true ∧
        (generateImagesRun ⟨400, 5⟩ saturatedOracle ⟨0, 5, 0⟩).budget = ⟨0, 5, 0⟩) := by
  constructor
  · intro cfg s now resumeTime h
    unfold checkRateLimit
    simp [ge_iff_le, h]
  · exact ⟨by decide, by decide, by decide⟩

/-- Witness for C4 as amended: a reservation against a budget whose daily
counter sits exactly at the limit throws immediately, leaving the state
unchanged. -/
theorem c4_amended_witness :
    checkRateLimit ⟨400, 5⟩ ⟨0, 5, 0⟩ 0 0 = (⟨0, 5, 0⟩, true) :=
  c4_amended.1 ⟨400, 5⟩ ⟨0, 5, 0⟩ 0 0 (by decide)

/-- One CSV row as processProducts sees it: the Handle, Title and Image Src
fields (lines 14-26); remaining fields play no role in selection. -/
structure ProductRow where
  handle : String
  title : String
  imageSrc : String
deriving Repr, DecidableEq

/-- Whitespace trimming of both ends, modelling the JavaScript
String.prototype.trim used at line 853 (written over the character list so it
evaluates by structural recursion). -/
def trimString (s : String) : String :=
  String.mk (((s.toList.dropWhile Char.isWhitespace).reverse.dropWhile
    Char.isWhitespace).reverse)

/-- The row filter of lines 852-855: keep rows whose Image Src and Title are
truthy (non-empty strings) and whose trimmed Image Src is non-empty. -/
def validRow (r : ProductRow) : Bool :=
  r.imageSrc != "" && r.title != "" && trimString r.imageSrc != ""

/-- The de-duplication of lines 861-863: keep a row exactly when its index
equals the first index carrying its Handle (first occurrence wins). -/
def dedupByHandle (l : List ProductRow) : List ProductRow :=
  (l.enum.filter
      (fun ip => l.findIdx (fun q => q.handle == ip.2.handle) == ip.1)).map Prod.snd

/-- Item selection of processProducts (lines 851-890): filter valid rows,
de-duplicate by Handle, optionally restrict to a specific handle, clamp the
start index at 0 (line 877), and slice.  Line 878 computes the slice end as
limit ? Math.min(startIdx + limit, length) : length — under JavaScript
truthiness a limit of 0 selects the no-limit branch.  Negative or fractional
limits are outside this model; startIndex keeps its full signed range. -/
def selectProducts (rows : List ProductRow) (startIndex : Int) (limit : Option Nat)
    (specificHandle : Option String) : List ProductRow :=
  let products := rows.filter validRow
  let uniqueProducts := dedupByHandle products
  let filtered :=
    match specificHandle with
    | some h => uniqueProducts.filter (fun pr : ProductRow => pr.handle == h)
    | none => uniqueProducts
  let startIdx := (max 0 startIndex).toNat
  let endIdx :=
    match limit with
    | some l => if l ≠ 0 then min (startIdx + l) filtered.length else filtered.length
    | none => filtered.length
  (filtered.take endIdx).drop startIdx

lemma take_min_length {A : Type} (l : List A) (n : Nat) :
    l.take (min n l.length) = l.take n := by
  rcases le_total n l.length with h | h
  · rw [min_eq_left h]
  · rw [min_eq_right h, List.take_length, List.take_of_length_le h]

lemma dedupByHandle_sublist (l : List ProductRow) :
    List.Sublist (dedupByHandle l) l := by
  have h1 := (List.filter_sublist (l := l.enum)
    (p := fun ip => l.findIdx (fun q => q.handle == ip.2.handle) == ip.1)).map Prod.snd
  rw [show List.map Prod.snd l.enum = l from List.enumFrom_map_snd 0 l] at h1
  exact h1

lemma dedupByHandle_pair (p q : ProductRow) (h : p.handle = q.handle) :
    dedupByHandle [p, q] = [p] := by
  simp [dedupByHandle, List.enum, List.findIdx_cons, h]

/-- The three-row collection used against C9. -/
def c9Rows : List ProductRow :=
  [⟨"a", "t", "u"⟩, ⟨"b", "t", "u"⟩, ⟨"c", "t", "u"⟩]

/-- Counterexample to C9.  The claim says a limit of 0 yields an empty slice;
since 0 is falsy in JavaScript, line 878 treats limit 0 as no limit and the
runner processes all three items. -/
theorem c9_counterexample :
    (selectProducts c9Rows 0 (some 0) none).length = 3 ∧
      ¬ (selectProducts c9Rows 0 (some 0) none = []) := by
  decide

/-- C9 as amended: for every positive limit the runner processes exactly the
half-open slice [startIndex, startIndex + limit) — clamped to the collection
bounds, with a negative startIndex clamped to 0 — of the first-occurrence-wins
de-duplication of the filtered input, in input order (the de-duplicated set is
a sublist of the input, and of two rows sharing a Handle only the first is
kept); a limit of 0, like an absent limit, is treated as no limit and selects
through the end of the collection. -/
theorem c9_amended (rows : List ProductRow) (i : Int) (l : Nat) (hl : 1 ≤ l) :
    selectProducts rows i (some l) none
        = ((dedupByHandle (rows.filter validRow)).take ((max 0 i).toNat + l)).drop
            (max 0 i).toNat ∧
      (∀ p q : ProductRow, p.handle = q.handle → dedupByHandle [p, q] = [p]) ∧
      List.Sublist (dedupByHandle (rows.filter validRow)) (rows.filter validRow) := by
  refine ⟨?_, fun p q h => dedupByHandle_pair p q h, dedupByHandle_sublist _⟩
  have hne : l ≠ 0 := by omega
  simp only [selectProducts, hne, if_true, ne_eq, not_false_eq_true, if_pos]
  rw [take_min_length]

/-- Witness for C9 as amended: slicing c9Rows with startIndex 0 and limit 1. -/
theorem c9_amended_witness :
    selectProducts c9Rows 0 (some 1) none
        = ((dedupByHandle (c9Rows.filter validRow)).take 1).drop 0 :=
  (c9_amended c9Rows 0 1 (by decide)).1
